import Mathlib

/-!
Shallow embedding of `src/daemon.py` (BioDaemon): the fatigue engine,
the session-lock hook install/uninstall logic, the polling fallback
lock probe, and the orchestrator tick loop, with theorems about them.

Python integers are modelled as `Int`; Python truthiness of optional
pointer values (`None` and `0` are falsy) is modelled explicitly.
-/

namespace BioDaemon

/-- `DEBUG_MODE = False` in the source settings. -/
def DEBUG_MODE : Bool := false

/-- `LIMIT_ROUND = 45`. -/
def LIMIT_ROUND : Int := 45
/-- `LIMIT_SLOUCH = 60`. -/
def LIMIT_SLOUCH : Int := 60
/-- `LIMIT_MELT = 70`. -/
def LIMIT_MELT : Int := 70
/-- `LIMIT_FLAT = 80`. -/
def LIMIT_FLAT : Int := 80
/-- `LIMIT_DEATH = 80`, the hard cap for the fatigue counter. -/
def LIMIT_DEATH : Int := 80
/-- `MIN_BREAK_TIME = 2`. -/
def MIN_BREAK_TIME : Int := 2
/-- `FULL_RESET_TIME = 15`. -/
def FULL_RESET_TIME : Int := 15

/-- Result of `calculate_healing`: the Python function returns either an
`int` amount or the sentinel string `"FULL_RESET"`. -/
inductive HealResult where
  | amount (n : Int)
  | fullReset
deriving DecidableEq, Repr

/-- `BioDaemon.calculate_healing` (daemon.py:109-121): decide how much to
restore based on break length in whole minutes. -/
def calculate_healing (minutes_away : Int) : HealResult :=
  if minutes_away < MIN_BREAK_TIME then .amount 0
  else if minutes_away ≥ FULL_RESET_TIME then .fullReset
  else if minutes_away < 5 then .amount (minutes_away * 2)
  else .amount (minutes_away * 4)

/-- `BioDaemon.clamp_fatigue` (daemon.py:123-125): keep fatigue within
`[0, LIMIT_DEATH]`. -/
def clamp_fatigue (f : Int) : Int :=
  max 0 (min f LIMIT_DEATH)

/-- The application of a `calculate_healing` result to the score, as done by
the body of the `if self.fatigue < LIMIT_DEATH` branch of
`handle_unlock_heal` (daemon.py:132-141): `"FULL_RESET"` zeroes the score, a
positive integer amount is subtracted and floored at 0, any other result
(the amount 0) leaves the score alone. -/
def apply_heal (r : HealResult) (s : Int) : Int :=
  match r with
  | .fullReset => 0
  | .amount h => if h > 0 then max 0 (s - h) else s

/-- The healing function on scores: `calculate_healing` followed by its
application to the score (the below-cap branch of `handle_unlock_heal`). -/
def heal (minutes_away : Int) (s : Int) : Int :=
  apply_heal (calculate_healing minutes_away) s

/-- `BioDaemon.handle_unlock_heal` (daemon.py:127-144) acting on the fatigue
score: convert the break duration to whole minutes (Python `int()` truncates
toward zero, i.e. `Int.div`; the divisor is 60 since `DEBUG_MODE = False`),
apply healing only if the score is strictly below `LIMIT_DEATH`, then clamp. -/
def handle_unlock_heal (duration_seconds : Int) (s : Int) : Int :=
  let minutes_away := Int.tdiv duration_seconds (if DEBUG_MODE then 1 else 60)
  let s1 := if s < LIMIT_DEATH then heal minutes_away s else s
  clamp_fatigue s1

/-- The manual reset performed from the resurrection dialog
(daemon.py:424-425): `self.fatigue = 0` followed by `clamp_fatigue`. -/
def manual_reset : Int :=
  clamp_fatigue 0

/-- `BioDaemon.get_current_state` (daemon.py:76-87): the visual state name
derived from the current fatigue level. -/
def get_current_state (fatigue : Int) : String :=
  if fatigue < LIMIT_ROUND then "round"
  else if fatigue < LIMIT_SLOUCH then "slouch"
  else if fatigue < LIMIT_MELT then "melt"
  else if fatigue < LIMIT_FLAT then "flat"
  else "tombstone"

/-- Severity rank of the visual state names, in the order the thresholds of
`get_current_state` produce them (any other string ranks above all). -/
def state_rank (s : String) : Nat :=
  if s = "round" then 0
  else if s = "slouch" then 1
  else if s = "melt" then 2
  else if s = "flat" then 3
  else if s = "tombstone" then 4
  else 5

/-- The mutable daemon fields driven by the timer loop and the session
callbacks: `self.fatigue`, `self.state` (the cached last observed visual
state), `self.is_locked`, and `self.lock_start_time` (0 means unset; the
Python code tests it for truthiness). Timestamps are whole seconds. -/
structure DState where
  fatigue : Int
  state : String
  is_locked : Bool
  lock_start_time : Int
deriving DecidableEq, Repr

/-- The daemon fields right after `__init__` (daemon.py:32-42). -/
def initState : DState :=
  { fatigue := 0, state := "round", is_locked := false, lock_start_time := 0 }

/-- `BioDaemon.update_icon` (daemon.py:89-104) as far as it mutates daemon
state: it recomputes the visual state and caches it when it changed (the
icon/menu/notification side effects do not touch these fields). -/
def update_icon (d : DState) : DState :=
  { d with state := get_current_state d.fatigue }

/-- `handle_unlock_heal` as a transition on the daemon state: the score
update of `handle_unlock_heal` followed by the `update_icon` call it ends
with (daemon.py:127-144). -/
def unlock_heal_step (duration_seconds : Int) (d : DState) : DState :=
  update_icon { d with fatigue := handle_unlock_heal duration_seconds d.fatigue }

/-- One iteration of `run_timer` (daemon.py:372-376) when `_session_events`
is true (event-driven mode): accrue 1 fatigue if unlocked and below the
cap, then refresh the icon. No polling, no healing. -/
def event_tick (d : DState) : DState :=
  let d1 := if ¬ d.is_locked ∧ d.fatigue < LIMIT_DEATH then
      { d with fatigue := d.fatigue + 1 } else d
  update_icon d1

/-- `n` consecutive event-driven ticks. -/
def event_ticks : Nat → DState → DState
  | 0, d => d
  | n + 1, d => event_ticks n (event_tick d)

/-- One iteration of `run_timer` (daemon.py:377-395) when `_session_events`
is false (polling fallback): `currently_locked` is the probe's result and
`now` the current time. On observing locked, record the lock start on the
first such tick; on observing unlocked, first heal if this tick is the
Locked→Unlocked transition (duration 0 when the recorded start is falsy),
then accrue below the cap; finally clamp and refresh. -/
def polling_tick (currently_locked : Bool) (now : Int) (d : DState) : DState :=
  let d1 :=
    if currently_locked then
      if ¬ d.is_locked then
        { d with is_locked := true, lock_start_time := now }
      else d
    else
      let d2 :=
        if d.is_locked then
          let duration := if d.lock_start_time ≠ 0 then now - d.lock_start_time else 0
          let d' := { d with is_locked := false, lock_start_time := 0 }
          unlock_heal_step duration d'
        else d
      if d2.fatigue < LIMIT_DEATH then { d2 with fatigue := d2.fatigue + 1 } else d2
  update_icon { d1 with fatigue := clamp_fatigue d1.fatigue }

/-- The lock branch of the event-driven window procedure `py_wndproc`
(daemon.py:207-209): `WTS_SESSION_LOCK` sets the locked flag and records
the current time. -/
def session_lock_event (now : Int) (d : DState) : DState :=
  { d with is_locked := true, lock_start_time := now }

/-- The unlock branch of `py_wndproc` (daemon.py:210-215):
`WTS_SESSION_UNLOCK` clears the locked flag, computes the duration from the
recorded start (0 when the start is falsy), clears the start, and calls
`handle_unlock_heal`. -/
def session_unlock_event (now : Int) (d : DState) : DState :=
  let duration := if d.lock_start_time ≠ 0 then now - d.lock_start_time else 0
  unlock_heal_step duration { d with is_locked := false, lock_start_time := 0 }

/-- The manual reset confirmed from the resurrection dialog
(daemon.py:424-426): zero the score, clamp, refresh the icon. -/
def manual_reset_step (d : DState) : DState :=
  update_icon { d with fatigue := manual_reset }

/-- Python truthiness of an optional pointer-sized value: `None` and `0`
are falsy (ctypes maps a NULL pointer result to `None`). -/
def ptrTruthy (p : Option Int) : Bool :=
  match p with
  | none => false
  | some v => v ≠ 0

/-- The WTS hook bookkeeping fields of the daemon (daemon.py:45-48):
`_session_events`, `_wndproc` (modelled as the flag "a replacement callback
object is stored"), `_orig_wndproc`, `_hwnd`. -/
structure HookState where
  session_events : Bool
  wndproc : Bool
  orig_wndproc : Option Int
  hwnd : Option Int
deriving DecidableEq, Repr

/-- The hook fields right after `__init__` (daemon.py:45-48). -/
def initHook : HookState :=
  { session_events := false, wndproc := false, orig_wndproc := none, hwnd := none }

/-- `BioDaemon.install_session_notifications` (daemon.py:149-239) on the
hook fields, on win32. The native outcomes are inputs: `winfo` is the Tk
window handle (`none` when `root.winfo_id()` raised), `orig` the result of
`GetWindowLongPtrW` (`none` for NULL), `prev` the result of the
`SetWindowLongPtrW` swap (falsy means the swap failed, in which case no swap
took place), `regOk` whether `WTSRegisterSessionNotification` succeeded.
Returns the new hook state together with whether the rollback call restoring
the original window procedure was issued (daemon.py:236). -/
def install_session_notifications (winfo : Option Int) (orig : Option Int)
    (prev : Option Int) (regOk : Bool) (h : HookState) : HookState × Bool :=
  match winfo with
  | none => ({ h with hwnd := none }, false)
  | some w =>
    let h1 := { h with hwnd := some w, orig_wndproc := orig }
    if ptrTruthy prev then
      let h2 := { h1 with wndproc := true }
      if regOk then
        ({ h2 with session_events := true }, false)
      else
        ({ h2 with session_events := false, wndproc := false,
                   orig_wndproc := none }, true)
    else
      ({ h1 with session_events := false, wndproc := false,
                 orig_wndproc := none }, false)

/-- The two native calls `uninstall_session_notifications` can issue, in
issue order. -/
inductive HookCall where
  | unregister
  | restoreProc
deriving DecidableEq, Repr

/-- `BioDaemon.uninstall_session_notifications` (daemon.py:241-262) on the
hook fields, on win32. `unregRaises` and `restoreRaises` say whether the
respective native call raises; a raise skips the remaining calls of the
`try` block, the `except` swallows it, and the `finally` block always clears
all four fields. Returns the new hook state and the list of native calls
issued. -/
def uninstall_session_notifications (unregRaises _restoreRaises : Bool)
    (h : HookState) : HookState × List HookCall :=
  let needUnreg := ptrTruthy h.hwnd && h.session_events
  let needRestore := ptrTruthy h.hwnd && ptrTruthy h.orig_wndproc && h.wndproc
  let calls :=
    if needUnreg && unregRaises then [HookCall.unregister]
    else
      (if needUnreg then [HookCall.unregister] else []) ++
      (if needRestore then [HookCall.restoreProc] else [])
  -- a raise in the restore call (the last call) skips nothing, so
  -- `restoreRaises` affects neither the calls issued nor the state
  (initHook, calls)

/-- The outcome of the active-desktop probe in `check_lock_state_fallback`
(daemon.py:282-296): `OpenInputDesktop` may return NULL (`openFails`), the
name read `GetUserObjectInformationW` may report failure (`nameReadFails`,
leaving the name `""`), the probe may succeed with a desktop name, or the
whole `try` block may raise (`raises`, e.g. the API is unavailable). -/
inductive DesktopProbe where
  | ok (name : String)
  | nameReadFails
  | openFails
  | raises
deriving DecidableEq, Repr

/-- The outcome of the idle-time fallback reads (daemon.py:298-315):
`GetLastInputInfo` either reports the idle time in milliseconds or fails. -/
inductive IdleProbe where
  | ok (idle_ms : Int)
  | fails
deriving DecidableEq, Repr

/-- Python `str.lower()` on the probed desktop name: lower-case each
character (ASCII suffices for the names compared against). -/
def lower_name (s : String) : String :=
  String.mk (s.data.map Char.toLower)

/-- `BioDaemon.check_lock_state_fallback` (daemon.py:267-315) on win32:
probe the active desktop; a readable name equal (case-insensitively) to
`"default"` means unlocked, any other name — including the empty name from a
failed name read — means locked, and a NULL desktop handle means locked.
Only when the desktop probe raises does the idle-time heuristic run: idle
time at or beyond the threshold (60000 ms, since `DEBUG_MODE = False`)
means locked, and a failed `GetLastInputInfo` means unlocked. Returns
`true` for locked. -/
def check_lock_state_fallback (dp : DesktopProbe) (ip : IdleProbe) : Bool :=
  match dp with
  | .ok name =>
    if lower_name name = "default" then false
    else if lower_name name = "winlogon" ∨ lower_name name = "screensaver" then true
    else true
  | .nameReadFails => true
  | .openFails => true
  | .raises =>
    match ip with
    | .ok idle_ms => idle_ms ≥ (if DEBUG_MODE then 10000 else 60000)
    | .fails => false

/-! ### Helper lemmas -/

theorem clamp_fatigue_mem (f : Int) :
    0 ≤ clamp_fatigue f ∧ clamp_fatigue f ≤ 80 := by
  unfold clamp_fatigue LIMIT_DEATH
  omega

theorem clamp_fatigue_eq_self (f : Int) (h0 : 0 ≤ f) (h80 : f ≤ 80) :
    clamp_fatigue f = f := by
  unfold clamp_fatigue LIMIT_DEATH
  omega

theorem heal_le_self (m s : Int) (hs : 0 ≤ s) : heal m s ≤ s := by
  unfold heal calculate_healing MIN_BREAK_TIME FULL_RESET_TIME
  split_ifs <;> simp only [apply_heal] <;> (try split_ifs) <;> omega

theorem handle_unlock_heal_eq (dur s : Int) :
    handle_unlock_heal dur s =
      clamp_fatigue (if s < 80 then heal (Int.tdiv dur 60) s else s) := by
  simp only [handle_unlock_heal, DEBUG_MODE, LIMIT_DEATH]
  norm_num

theorem handle_unlock_heal_mem (dur s : Int) :
    0 ≤ handle_unlock_heal dur s ∧ handle_unlock_heal dur s ≤ 80 := by
  unfold handle_unlock_heal
  exact clamp_fatigue_mem _

theorem update_icon_fatigue (d : DState) :
    (update_icon d).fatigue = d.fatigue := rfl

/-- The fatigue invariant of the spec: the score stays in `[0, 80]`. -/
def FatigueInv (d : DState) : Prop :=
  0 ≤ d.fatigue ∧ d.fatigue ≤ 80

theorem event_tick_fatigue (d : DState) :
    (event_tick d).fatigue =
      if d.is_locked = false ∧ d.fatigue < 80 then d.fatigue + 1
      else d.fatigue := by
  unfold event_tick update_icon LIMIT_DEATH
  split_ifs with h1 h2 <;> simp_all

theorem event_tick_is_locked (d : DState) :
    (event_tick d).is_locked = d.is_locked := by
  unfold event_tick update_icon
  split_ifs <;> rfl

theorem event_ticks_unlocked (n : Nat) (d : DState)
    (hl : d.is_locked = false) (hf : d.fatigue + n ≤ 80) :
    (event_ticks n d).fatigue = d.fatigue + n := by
  induction n generalizing d with
  | zero => simp [event_ticks]
  | succ k ih =>
    have h1 : (event_tick d).fatigue = d.fatigue + 1 := by
      rw [event_tick_fatigue]
      have : d.fatigue < 80 := by push_cast at hf; omega
      simp [hl, this]
    have h2 : (event_tick d).is_locked = false := by
      rw [event_tick_is_locked, hl]
    show (event_ticks k (event_tick d)).fatigue = d.fatigue + (k + 1 : Nat)
    rw [ih (event_tick d) h2 (by rw [h1]; push_cast at hf ⊢; omega), h1]
    push_cast
    ring

/-! ### Claim theorems -/

/-- C1: the healing function on whole minutes `m` is exactly piecewise:
`m < 2` leaves the score unchanged; `m ≥ 15` sets it to 0 regardless of the
prior score; `2 ≤ m < 5` subtracts exactly `2*m`; `5 ≤ m < 15` subtracts
exactly `4*m`; and the result is clamped to be `≥ 0`. -/
theorem heal_piecewise (m s : Int) :
    (m < 2 → heal m s = s) ∧
    (m ≥ 15 → heal m s = 0) ∧
    (2 ≤ m → m < 5 → heal m s = max 0 (s - 2 * m)) ∧
    (5 ≤ m → m < 15 → heal m s = max 0 (s - 4 * m)) := by
  unfold heal calculate_healing MIN_BREAK_TIME FULL_RESET_TIME
  refine ⟨fun h1 => ?_, fun h2 => ?_, fun h3 h4 => ?_, fun h5 h6 => ?_⟩ <;>
    split_ifs <;> simp only [apply_heal] <;> (try split_ifs) <;> omega

/-- C1 witness: `heal` at concrete inputs, e.g. a 3-minute break on score
50 restores 6, and a 20-minute break zeroes a score of 77. -/
theorem heal_piecewise_witness :
    heal 3 50 = max 0 (50 - 2 * 3) ∧ heal 20 77 = 0 :=
  ⟨(heal_piecewise 3 50).2.2.1 (by norm_num) (by norm_num),
   (heal_piecewise 20 77).2.1 (by norm_num)⟩

/-- C6: the fatigue state is a pure, deterministic, monotonic step function
of the score: `round` iff `s < 45`, `slouch` iff `45 ≤ s < 60`, `melt` iff
`60 ≤ s < 70`, `flat` iff `70 ≤ s < 80`, `tombstone` iff `s ≥ 80`, and the
state's severity rank is monotone in the score. -/
theorem get_current_state_step (s t : Int) :
    (get_current_state s = "round" ↔ s < 45) ∧
    (get_current_state s = "slouch" ↔ 45 ≤ s ∧ s < 60) ∧
    (get_current_state s = "melt" ↔ 60 ≤ s ∧ s < 70) ∧
    (get_current_state s = "flat" ↔ 70 ≤ s ∧ s < 80) ∧
    (get_current_state s = "tombstone" ↔ 80 ≤ s) ∧
    (s ≤ t → state_rank (get_current_state s) ≤ state_rank (get_current_state t)) := by
  have hrank : ∀ u : Int, state_rank (get_current_state u) =
      if u < 45 then 0 else if u < 60 then 1 else if u < 70 then 2
      else if u < 80 then 3 else 4 := by
    intro u
    unfold get_current_state LIMIT_ROUND LIMIT_SLOUCH LIMIT_MELT LIMIT_FLAT
    split_ifs <;> simp [state_rank]
  refine ⟨?_, ?_, ?_, ?_, ?_, fun hst => ?_⟩
  · unfold get_current_state LIMIT_ROUND LIMIT_SLOUCH LIMIT_MELT LIMIT_FLAT
    split_ifs <;> simp <;> omega
  · unfold get_current_state LIMIT_ROUND LIMIT_SLOUCH LIMIT_MELT LIMIT_FLAT
    split_ifs <;> simp <;> omega
  · unfold get_current_state LIMIT_ROUND LIMIT_SLOUCH LIMIT_MELT LIMIT_FLAT
    split_ifs <;> simp <;> omega
  · unfold get_current_state LIMIT_ROUND LIMIT_SLOUCH LIMIT_MELT LIMIT_FLAT
    split_ifs <;> simp <;> omega
  · unfold get_current_state LIMIT_ROUND LIMIT_SLOUCH LIMIT_MELT LIMIT_FLAT
    split_ifs <;> simp <;> omega
  · rw [hrank s, hrank t]
    split_ifs <;> omega

/-- C6 witness: the state at concrete scores, e.g. 44 is `round`, 45 is
`slouch`, and ranks are monotone from 44 to 80. -/
theorem get_current_state_step_witness :
    get_current_state 44 = "round" ∧
    get_current_state 45 = "slouch" ∧
    state_rank (get_current_state 44) ≤ state_rank (get_current_state 80) :=
  ⟨(get_current_state_step 44 0).1.mpr (by norm_num),
   (get_current_state_step 45 0).2.1.mpr (by norm_num),
   (get_current_state_step 44 80).2.2.2.2.2 (by norm_num)⟩

theorem handle_unlock_heal_at_cap (dur : Int) : handle_unlock_heal dur 80 = 80 := by
  rw [handle_unlock_heal_eq, if_neg (by norm_num)]
  exact clamp_fatigue_eq_self 80 (by norm_num) (by norm_num)

/-- C2: healing is applied only when the score was strictly below the death
cap 80 at unlock time: at the cap, `handle_unlock_heal` leaves the score
unchanged for every duration (even a full-reset-sized one), the unlock
event on a capped daemon state keeps the score at 80, below the cap the
heal is evaluated, and only the manual reset zeroes a capped score. -/
theorem unlock_heal_cap_gate (dur s now : Int) (d : DState) :
    (handle_unlock_heal dur 80 = 80) ∧
    (s < 80 → handle_unlock_heal dur s = clamp_fatigue (heal (Int.tdiv dur 60) s)) ∧
    (d.fatigue = 80 → (session_unlock_event now d).fatigue = 80) ∧
    ((manual_reset_step d).fatigue = 0) := by
  refine ⟨handle_unlock_heal_at_cap dur, fun hs => ?_, fun hd => ?_, ?_⟩
  · rw [handle_unlock_heal_eq, if_pos hs]
  · unfold session_unlock_event unlock_heal_step update_icon
    dsimp only
    rw [hd]
    exact handle_unlock_heal_at_cap _
  · simp [manual_reset_step, update_icon, manual_reset, clamp_fatigue, LIMIT_DEATH]

/-- C2 witness: a 20-minute (1200 s) break at the cap heals nothing, while
the same break at score 50 is evaluated, and the manual reset zeroes a
capped state. -/
theorem unlock_heal_cap_gate_witness :
    handle_unlock_heal 1200 80 = 80 ∧
    (session_unlock_event 1200 ⟨80, "tombstone", true, 0⟩).fatigue = 80 ∧
    handle_unlock_heal 1200 50 = clamp_fatigue (heal 20 50) ∧
    (manual_reset_step ⟨80, "tombstone", false, 0⟩).fatigue = 0 :=
  ⟨(unlock_heal_cap_gate 1200 50 1200 ⟨80, "tombstone", true, 0⟩).1,
   (unlock_heal_cap_gate 1200 50 1200 ⟨80, "tombstone", true, 0⟩).2.2.1 rfl,
   (unlock_heal_cap_gate 1200 50 1200 ⟨80, "tombstone", true, 0⟩).2.1 (by norm_num),
   (unlock_heal_cap_gate 1200 50 1200 ⟨80, "tombstone", false, 0⟩).2.2.2⟩

/-- C3: the fatigue score is in `[0, 80]` at process start and is preserved
by every mutation of the state: the event-driven tick, the polling tick,
both session callbacks, the unlock-heal, and the manual reset. -/
theorem fatigue_invariant (d : DState) (now dur : Int) (probe : Bool)
    (h : FatigueInv d) :
    FatigueInv initState ∧
    FatigueInv (event_tick d) ∧
    FatigueInv (polling_tick probe now d) ∧
    FatigueInv (session_lock_event now d) ∧
    FatigueInv (session_unlock_event now d) ∧
    FatigueInv (unlock_heal_step dur d) ∧
    FatigueInv (manual_reset_step d) := by
  obtain ⟨h0, h80⟩ := h
  refine ⟨⟨by norm_num [initState], by norm_num [initState]⟩, ?_, ?_, ?_, ?_, ?_, ?_⟩
  · unfold FatigueInv
    rw [event_tick_fatigue]
    split_ifs <;> omega
  · have hx : ∃ x, (polling_tick probe now d).fatigue = clamp_fatigue x := by
      unfold polling_tick update_icon
      exact ⟨_, rfl⟩
    obtain ⟨x, hx⟩ := hx
    unfold FatigueInv
    rw [hx]
    exact clamp_fatigue_mem x
  · exact ⟨h0, h80⟩
  · unfold session_unlock_event unlock_heal_step update_icon FatigueInv
    dsimp only
    exact handle_unlock_heal_mem _ _
  · unfold unlock_heal_step update_icon FatigueInv
    dsimp only
    exact handle_unlock_heal_mem _ _
  · unfold manual_reset_step update_icon FatigueInv manual_reset
    dsimp only
    exact clamp_fatigue_mem 0

/-- C3 witness: the invariant holds after one event tick and one unlock
heal from the initial state. -/
theorem fatigue_invariant_witness :
    FatigueInv (event_tick initState) ∧ FatigueInv (unlock_heal_step 180 initState) :=
  ⟨(fatigue_invariant initState 0 180 false ⟨by norm_num [initState], by norm_num [initState]⟩).2.1,
   (fatigue_invariant initState 0 180 false ⟨by norm_num [initState], by norm_num [initState]⟩).2.2.2.2.2.1⟩

theorem polling_tick_locked_fatigue (t : Int) (e : DState) (h : FatigueInv e) :
    (polling_tick true t e).fatigue = e.fatigue := by
  obtain ⟨h0, h80⟩ := h
  unfold polling_tick update_icon
  split_ifs <;>
    first
      | (dsimp only; exact clamp_fatigue_eq_self _ h0 h80)
      | simp_all

/-- C4 counterexample: the per-tick "+1 iff Unlocked and below cap" fails
on a polling Locked→Unlocked tick: from score 60, locked since time 60, the
probe-unlocked tick at time 240 ends Unlocked with the prior score below
the cap, yet the score becomes 55 (heal 6, then accrue 1), not 61. -/
theorem accrual_per_tick_cex :
    (polling_tick false 240 ⟨60, "slouch", true, 60⟩).is_locked = false ∧
    (60 : Int) < 80 ∧
    (polling_tick false 240 ⟨60, "slouch", true, 60⟩).fatigue = 55 ∧
    (polling_tick false 240 ⟨60, "slouch", true, 60⟩).fatigue ≠ 60 + 1 := by
  refine ⟨by decide, by decide, by decide, by decide⟩

/-- C4 amended: on every orchestrator tick that performs no healing the
score is incremented by exactly 1 iff the session is Unlocked and the score
is strictly below the cap 80: so on every event-driven tick, and on every
polling tick on which the session was already Unlocked; no accrual happens
on a tick while the session is Locked (either mode), none at the cap (hard
ceiling), and 10 consecutive unlocked event ticks add exactly 10 unless the
cap is reached first. The one healing tick class is the exception: on a
polling Locked→Unlocked transition tick, healing is applied first and one
accrual point is then also added when the post-heal score is below the
cap. -/
theorem accrual_per_tick (d : DState) (now : Int) :
    ((event_tick d).fatigue = d.fatigue + 1 ↔ d.is_locked = false ∧ d.fatigue < 80) ∧
    (d.is_locked = false → FatigueInv d →
      ((polling_tick false now d).fatigue = d.fatigue + 1 ↔ d.fatigue < 80)) ∧
    (d.is_locked = true → (event_tick d).fatigue = d.fatigue) ∧
    (80 ≤ d.fatigue → (event_tick d).fatigue = d.fatigue) ∧
    (FatigueInv d → (polling_tick true now d).fatigue = d.fatigue) ∧
    (d.is_locked = true →
      (polling_tick false now d).fatigue =
        (if handle_unlock_heal
              (if d.lock_start_time ≠ 0 then now - d.lock_start_time else 0)
              d.fatigue < 80 then
           handle_unlock_heal
             (if d.lock_start_time ≠ 0 then now - d.lock_start_time else 0)
             d.fatigue + 1
         else
           handle_unlock_heal
             (if d.lock_start_time ≠ 0 then now - d.lock_start_time else 0)
             d.fatigue)) ∧
    (d.is_locked = false → d.fatigue + 10 ≤ 80 →
      (event_ticks 10 d).fatigue = d.fatigue + 10) := by
  refine ⟨?_, fun hl hinv => ?_, fun hl => ?_, fun hc => ?_,
    fun hinv => polling_tick_locked_fatigue now d hinv, fun hl => ?_, fun hl hf => ?_⟩
  · rw [event_tick_fatigue]
    split_ifs with h
    · simp [h]
    · constructor
      · intro he
        omega
      · intro he
        exact absurd he h
  · obtain ⟨h0, h80⟩ := hinv
    have hred : (polling_tick false now d).fatigue =
        clamp_fatigue (if d.fatigue < 80 then d.fatigue + 1 else d.fatigue) := by
      by_cases hf : d.fatigue < 80 <;>
        · unfold polling_tick update_icon LIMIT_DEATH
          simp [hl, hf]
    rw [hred]
    unfold clamp_fatigue LIMIT_DEATH
    split_ifs <;> omega
  · rw [event_tick_fatigue]
    simp [hl]
  · rw [event_tick_fatigue]
    split_ifs with h <;> omega
  · set dur := if d.lock_start_time ≠ 0 then now - d.lock_start_time else 0 with hdur
    have hmem := handle_unlock_heal_mem dur d.fatigue
    unfold polling_tick update_icon unlock_heal_step LIMIT_DEATH
    split_ifs <;>
      simp_all [update_icon, handle_unlock_heal_eq, clamp_fatigue, LIMIT_DEATH] <;>
      omega
  · have := event_ticks_unlocked 10 d hl (by push_cast; omega)
    push_cast at this
    omega

/-- C4 amended witness: from the initial (unlocked, score 0) state one
event tick adds 1, one remaining-unlocked polling tick adds 1, and ten
event ticks add 10. -/
theorem accrual_per_tick_witness :
    (event_tick initState).fatigue = initState.fatigue + 1 ∧
    (polling_tick false 0 initState).fatigue = initState.fatigue + 1 ∧
    (event_ticks 10 initState).fatigue = initState.fatigue + 10 :=
  ⟨(accrual_per_tick initState 0).1.mpr ⟨rfl, by norm_num [initState]⟩,
   ((accrual_per_tick initState 0).2.1 rfl
      ⟨by norm_num [initState], by norm_num [initState]⟩).mpr (by norm_num [initState]),
   (accrual_per_tick initState 0).2.2.2.2.2.2 rfl (by norm_num [initState])⟩

/-- C10: the unlock-heal never increases the fatigue score: for every
integer break duration (including zero and negative durations) and every
starting score in `[0, 80]`, `handle_unlock_heal` does not increase it. -/
theorem handle_unlock_heal_le_self (dur s : Int) (h0 : 0 ≤ s) (h80 : s ≤ 80) :
    handle_unlock_heal dur s ≤ s := by
  rw [handle_unlock_heal_eq]
  split_ifs with h
  · have := heal_le_self (Int.tdiv dur 60) s h0
    unfold clamp_fatigue LIMIT_DEATH
    omega
  · rw [clamp_fatigue_eq_self s h0 h80]

/-- C10 witness: a negative duration (missing lock start) leaves a score of
50 at most 50. -/
theorem handle_unlock_heal_le_self_witness :
    handle_unlock_heal (-90) 50 ≤ 50 :=
  handle_unlock_heal_le_self (-90) 50 (by norm_num) (by norm_num)

/-- C5 counterexample: a failing native probe call is NOT treated as
"assume unlocked": a NULL result from `OpenInputDesktop` and a failed
desktop-name read both make `check_lock_state_fallback` report locked
(`true`), contradicting the claim that the probe's result is Unlocked for
every failing native call. -/
theorem probe_failure_unlocked_cex :
    check_lock_state_fallback DesktopProbe.openFails IdleProbe.fails = true ∧
    check_lock_state_fallback DesktopProbe.nameReadFails IdleProbe.fails = true :=
  ⟨rfl, rfl⟩

/-- C5 amended: failures of the desktop probe (NULL desktop handle, failed
name read) are treated as Locked; only when the desktop probe raises does
the idle heuristic run, where idle time at or beyond 60000 ms means Locked
and a failed idle read means Unlocked; a readable name is compared
case-insensitively against `"default"`; the probe always returns a boolean
(it never raises out of the tick). -/
theorem probe_failure_semantics (ip : IdleProbe) (ms : Int) (name : String) :
    (check_lock_state_fallback .openFails ip = true) ∧
    (check_lock_state_fallback .nameReadFails ip = true) ∧
    (check_lock_state_fallback .raises .fails = false) ∧
    (check_lock_state_fallback .raises (.ok ms) = true ↔ 60000 ≤ ms) ∧
    (lower_name name = "default" → check_lock_state_fallback (.ok name) ip = false) ∧
    (lower_name name ≠ "default" → check_lock_state_fallback (.ok name) ip = true) := by
  refine ⟨rfl, rfl, rfl, ?_, fun hn => ?_, fun hn => ?_⟩
  · simp only [check_lock_state_fallback, DEBUG_MODE]
    norm_num
  · simp [check_lock_state_fallback, hn]
  · simp [check_lock_state_fallback, hn]

/-- C5 amended witness: a lock-desktop name reads as locked, idle 60000 ms
reads as locked, and a failed idle read reads as unlocked. -/
theorem probe_failure_semantics_witness :
    check_lock_state_fallback (.ok "Winlogon") .fails = true ∧
    check_lock_state_fallback .raises (.ok 60000) = true ∧
    check_lock_state_fallback .raises .fails = false :=
  ⟨(probe_failure_semantics .fails 0 "Winlogon").2.2.2.2.2 (by decide),
   (probe_failure_semantics .fails 60000 "x").2.2.2.1.mpr (by norm_num),
   (probe_failure_semantics .fails 0 "x").2.2.1⟩

theorem winlogon_probe_locked (ip : IdleProbe) :
    check_lock_state_fallback (.ok "Winlogon") ip = true := by
  dsimp only [check_lock_state_fallback]
  decide

/-- C7: failed hook installation rolls back and is never fatal: on either
failure (swap failed, or registration failed) the hook state ends with
session events inactive and no stored procedure pointers, the restoring
call is issued iff the procedure had actually been swapped, a failed window
lookup leaves the hook state untouched, and with session events inactive a
locked desktop probe sets the session state to Locked within one polling
tick. -/
theorem install_rollback (w : Int) (orig prev : Option Int) (regOk : Bool)
    (ip : IdleProbe) (now : Int) (d : DState) :
    (ptrTruthy prev = false ∨ regOk = false →
      (install_session_notifications (some w) orig prev regOk initHook).1 =
        { session_events := false, wndproc := false,
          orig_wndproc := none, hwnd := some w }) ∧
    ((install_session_notifications (some w) orig prev regOk initHook).2 = true ↔
      ptrTruthy prev = true ∧ regOk = false) ∧
    (install_session_notifications none orig prev regOk initHook = (initHook, false)) ∧
    (check_lock_state_fallback (.ok "Winlogon") ip = true) ∧
    (d.is_locked = false → (polling_tick true now d).is_locked = true) := by
  refine ⟨fun hfail => ?_, ?_, rfl, winlogon_probe_locked ip, fun hl => ?_⟩
  · simp only [install_session_notifications]
    rcases hfail with hp | hr
    · simp [hp]
    · by_cases hp : ptrTruthy prev = true
      · simp [hp, hr]
      · simp [hp]
  · simp only [install_session_notifications]
    by_cases hp : ptrTruthy prev = true <;> cases regOk <;> simp [hp]
  · unfold polling_tick update_icon
    split_ifs <;> simp_all

/-- C7 witness: a failed swap (NULL previous pointer) and a failed
registration both end in the rolled-back state; only the latter issues the
restore; the polling tick then locks from the initial state. -/
theorem install_rollback_witness :
    (install_session_notifications (some 100) (some 7) (some 0) true initHook).1 =
      { session_events := false, wndproc := false,
        orig_wndproc := none, hwnd := some 100 } ∧
    (install_session_notifications (some 100) (some 7) (some 3) false initHook).2 = true ∧
    (polling_tick true 5 initState).is_locked = true :=
  ⟨(install_rollback 100 (some 7) (some 0) true .fails 5 initState).1 (Or.inl rfl),
   (install_rollback 100 (some 7) (some 3) false .fails 5 initState).2.1.mpr
     ⟨by decide, rfl⟩,
   (install_rollback 100 (some 7) (some 0) true .fails 5 initState).2.2.2.2 rfl⟩

/-- C8: teardown never corrupts state and is idempotent: whatever the prior
hook state and whether either native call raises, all hook fields are
cleared; a second teardown (or one with nothing installed) issues no native
calls; and after a successful installation the teardown unregisters the
notification before restoring the original window procedure. -/
theorem uninstall_idempotent (u r u2 r2 : Bool) (h : HookState) (w o p : Int) :
    ((uninstall_session_notifications u r h).1 = initHook) ∧
    (uninstall_session_notifications u2 r2
      (uninstall_session_notifications u r h).1 = (initHook, [])) ∧
    (uninstall_session_notifications u r initHook = (initHook, [])) ∧
    (w ≠ 0 → o ≠ 0 → p ≠ 0 →
      uninstall_session_notifications false false
        (install_session_notifications (some w) (some o) (some p) true initHook).1 =
        (initHook, [HookCall.unregister, HookCall.restoreProc])) := by
  refine ⟨rfl, rfl, rfl, fun hw ho hp => ?_⟩
  unfold install_session_notifications uninstall_session_notifications ptrTruthy
  simp [hw, ho, hp]

/-- C8 witness: teardown right after a successful install issues exactly
unregister-then-restore, and a second teardown issues nothing. -/
theorem uninstall_idempotent_witness :
    uninstall_session_notifications false false
      (install_session_notifications (some 100) (some 7) (some 3) true initHook).1 =
      (initHook, [HookCall.unregister, HookCall.restoreProc]) ∧
    uninstall_session_notifications false false initHook = (initHook, []) :=
  ⟨(uninstall_idempotent false false false false initHook 100 7 3).2.2.2
    (by norm_num) (by norm_num) (by norm_num),
   (uninstall_idempotent false false false false initHook 100 7 3).2.2.1⟩

/-- C9 counterexample: on a polling tick that transitions Locked→Unlocked
the code heals AND then also accrues one fatigue point in the same tick:
from score 50, locked since time 60, a probe-unlocked tick at time 240
(a 3-minute break healing 6) ends at 45, whereas healing alone
(`handle_unlock_heal`) gives 44 — so accrual happened on a tick on which
the session did not remain Unlocked throughout. -/
theorem polling_transition_accrues_cex :
    (polling_tick false 240 ⟨50, "slouch", true, 60⟩).fatigue = 45 ∧
    handle_unlock_heal (240 - 60) 50 = 44 := by
  constructor <;> decide

/-- C9 amended: on a polling tick whose probe observes Unlocked while the
stored state is Locked, the orchestrator heals with the duration since the
recorded lock start (0 when the start is unset), clears the lock start and
the locked flag, and then ALSO accrues 1 on that same tick when the
post-heal score is below the cap; accrual never happens on a tick whose
probe observes Locked. -/
theorem polling_transition_step (now : Int) (d : DState)
    (hl : d.is_locked = true) :
    ((polling_tick false now d).is_locked = false ∧
     (polling_tick false now d).lock_start_time = 0 ∧
     (polling_tick false now d).fatigue =
       (if handle_unlock_heal
            (if d.lock_start_time ≠ 0 then now - d.lock_start_time else 0)
            d.fatigue < 80 then
          handle_unlock_heal
            (if d.lock_start_time ≠ 0 then now - d.lock_start_time else 0)
            d.fatigue + 1
        else
          handle_unlock_heal
            (if d.lock_start_time ≠ 0 then now - d.lock_start_time else 0)
            d.fatigue)) ∧
    (∀ t e, FatigueInv e → (polling_tick true t e).fatigue = e.fatigue) := by
  refine ⟨?_, fun t e he => polling_tick_locked_fatigue t e he⟩
  set dur := if d.lock_start_time ≠ 0 then now - d.lock_start_time else 0 with hdur
  have hmem := handle_unlock_heal_mem dur d.fatigue
  unfold polling_tick update_icon unlock_heal_step LIMIT_DEATH
  split_ifs <;>
    simp_all [update_icon, handle_unlock_heal_eq, clamp_fatigue, LIMIT_DEATH] <;>
    omega

/-- C9 amended witness: the transition tick from the counterexample state
matches the heal-then-accrue characterization. -/
theorem polling_transition_step_witness :
    (polling_tick false 240 ⟨50, "slouch", true, 60⟩).fatigue =
      (if handle_unlock_heal (if (60 : Int) ≠ 0 then 240 - 60 else 0) 50 < 80 then
        handle_unlock_heal (if (60 : Int) ≠ 0 then 240 - 60 else 0) 50 + 1
      else handle_unlock_heal (if (60 : Int) ≠ 0 then 240 - 60 else 0) 50) :=
  (polling_transition_step 240 ⟨50, "slouch", true, 60⟩ rfl).1.2.2

end BioDaemon
